import Mathlib

/-!
Verification of the real-time collaboration layer of the Corkboard Pro
repository (an Express + Socket.io note-board server in `src/server.js`
and a browser collaboration client in `src/public/js/collaboration.js`).

The JavaScript code is shallowly embedded below:
* the client-side conflict resolver `resolveConflict` (collaboration.js,
  lines 493-500);
* the server-side socket room state and the relay handlers registered in
  `io.on('connection')` (server.js, lines 390-436), together with the
  room broadcast performed by the REST card endpoints via
  `io.to(...)` (server.js, lines 252-253, 284, 308);
* the client-side `CollaborationManager` state machine: `joinBoard`,
  `leaveBoard`, the `connect`/`disconnect` socket listeners, the
  outbound broadcast helpers and the inbound card/cursor handlers.

Timestamps are modelled as the integer millisecond values produced by
`new Date(v).getTime()`; a field that is absent on the JavaScript object
is `Option.none`, and JavaScript `||` falsiness of the number `0` is
modelled explicitly.
-/

namespace Corkboard

/-! ## Conflict resolver (collaboration.js 493-500)

```js
resolveConflict(localData, remoteData) {
    const localTimestamp = new Date(localData.updated_at || localData.modified || 0).getTime();
    const remoteTimestamp = new Date(remoteData.updated_at || remoteData.modified || 0).getTime();
    return remoteTimestamp >= localTimestamp ? remoteData : localData;
}
```
-/

/-- An entity version as seen by the conflict resolver: the two timestamp
fields it inspects (absent = `none`, otherwise the millisecond value of the
date) and the rest of the object, kept opaque as `payload` so that distinct
versions can be distinguished. -/
structure EntityData where
  updated_at : Option Int
  modified : Option Int
  payload : String
  deriving DecidableEq, Repr

/-- JavaScript `a || b` on a possibly-absent number `a`: the fallback `b` is
used when `a` is absent (`undefined`/`null`) or equal to `0` (falsy). -/
def jsOrNum (a : Option Int) (b : Int) : Int :=
  match a with
  | none => b
  | some t => if t = 0 then b else t

/-- The timestamp the resolver derives for one entity:
`updated_at || modified || 0`. -/
def entityTimestamp (e : EntityData) : Int :=
  jsOrNum e.updated_at (jsOrNum e.modified 0)

/-- The function `resolveConflict(localData, remoteData)` from collaboration.js:
last-write-wins, ties going to the remote version. -/
def resolveConflict (localData remoteData : EntityData) : EntityData :=
  if entityTimestamp localData ≤ entityTimestamp remoteData then remoteData
  else localData

theorem resolveConflict_eq_or (l r : EntityData) :
    resolveConflict l r = r ∨ resolveConflict l r = l := by
  unfold resolveConflict
  split <;> simp

/-- C5: `resolveConflict local remote` returns `remote` exactly when the
remote timestamp is at least the local one; with a strictly smaller remote
timestamp it returns `local`, and equal timestamps resolve to `remote`. -/
theorem resolveConflict_lww (l r : EntityData) :
    (resolveConflict l r = r ↔ entityTimestamp l ≤ entityTimestamp r) ∧
    (entityTimestamp r < entityTimestamp l → resolveConflict l r = l) ∧
    (entityTimestamp l = entityTimestamp r → resolveConflict l r = r) := by
  refine ⟨⟨fun h => ?_, fun h => by simp [resolveConflict, h]⟩, fun h => ?_, fun h => ?_⟩
  · by_contra hlt
    push_neg at hlt
    have hl : resolveConflict l r = l := by
      simp [resolveConflict, not_le.mpr hlt]
    rw [hl] at h
    rw [h] at hlt
    exact lt_irrefl _ hlt
  · simp [resolveConflict, not_le.mpr h]
  · simp [resolveConflict, le_of_eq h]

/-- Closed instance of C5 at the spec's scenario timestamps 100 and 200. -/
theorem resolveConflict_lww_witness :
    resolveConflict ⟨some 100, none, "local"⟩ ⟨some 200, none, "remote"⟩ =
      ⟨some 200, none, "remote"⟩ :=
  ((resolveConflict_lww ⟨some 100, none, "local"⟩
      ⟨some 200, none, "remote"⟩).1).mpr (by decide)

/-- C6: the conflict resolver is idempotent:
`resolveConflict (resolveConflict a b) b = resolveConflict a b`. -/
theorem resolveConflict_idem (a b : EntityData) :
    resolveConflict (resolveConflict a b) b = resolveConflict a b := by
  unfold resolveConflict
  split
  · simp
  · rfl

/-- C10: the resolver's timestamp is `updated_at`, falling back to
`modified`, then to `0`; when both fields are absent on both versions the
derived timestamps are `0` and the remote version is returned. -/
theorem resolveConflict_absent_fields (l r : EntityData)
    (hl1 : l.updated_at = none) (hl2 : l.modified = none)
    (hr1 : r.updated_at = none) (hr2 : r.modified = none) :
    entityTimestamp l = 0 ∧ entityTimestamp r = 0 ∧ resolveConflict l r = r := by
  have hl : entityTimestamp l = 0 := by
    simp [entityTimestamp, jsOrNum, hl1, hl2]
  have hr : entityTimestamp r = 0 := by
    simp [entityTimestamp, jsOrNum, hr1, hr2]
  refine ⟨hl, hr, ?_⟩
  simp [resolveConflict, hl, hr]

/-- Closed instance of C10: two versions with neither `updated_at` nor
`modified` resolve to the remote one. -/
theorem resolveConflict_absent_fields_witness :
    entityTimestamp ⟨none, none, "a"⟩ = 0 ∧
    entityTimestamp ⟨none, none, "b"⟩ = 0 ∧
    resolveConflict ⟨none, none, "a"⟩ ⟨none, none, "b"⟩ = ⟨none, none, "b"⟩ :=
  resolveConflict_absent_fields ⟨none, none, "a"⟩ ⟨none, none, "b"⟩
    rfl rfl rfl rfl

/-! ## Server-side room state and relay (server.js 390-436, 252-253, 284, 308)

Socket.io room semantics, as used by server.js:
* `socket.join(room)` adds the socket to the room (no-op when already in,
  and it never removes the socket from other rooms);
* `socket.leave(room)` removes the socket from that one room;
* on transport disconnect the socket.io framework removes the socket from
  every room; the app's `'disconnect'` handler body is only a
  `console.log`;
* `socket.to(room).emit(ev, p)` delivers to every member of the room
  except the emitting socket;
* `io.to(room).emit(ev, p)` (used by the REST card endpoints) delivers to
  every member of the room, with no exclusion.
-/

/-- A socket.io connection id. -/
abbrev SocketId := String

/-- A socket.io room name (server.js always uses `"board-" + boardId`). -/
abbrev RoomName := String

/-- A flat JavaScript object, as a key/value association list in property
insertion order (all values rendered as strings). -/
abbrev JsObj := List (String × String)

/-- An event payload: either a bare string (`user-joined`, `user-left`,
`card-deleted` carry an id), a flat object, or nothing (events such as the
client's local `connected` are fired with no argument). -/
inductive PayloadV where
  | str : String → PayloadV
  | obj : JsObj → PayloadV
  | empty : PayloadV
  deriving DecidableEq, Repr

/-- One delivered event: which socket receives it, the event name, and the
payload. -/
structure Delivery where
  recipient : SocketId
  event : String
  payload : PayloadV
  deriving DecidableEq, Repr

/-- The server's room-membership state: the set of (socket, room) pairs,
kept as a list in join order. -/
structure ServerState where
  members : List (SocketId × RoomName)
  deriving DecidableEq, Repr

/-- The state before any socket joined a room. -/
def ServerState.initial : ServerState := ⟨[]⟩

/-- The sockets currently in a room. -/
def roomMembers (st : ServerState) (room : RoomName) : List SocketId :=
  (st.members.filter (fun p => p.2 = room)).map (fun p => p.1)

/-- Socket.io `socket.join(room)`: adds the pair unless already present; other
memberships of the socket are untouched. -/
def socketJoin (st : ServerState) (sid : SocketId) (room : RoomName) :
    ServerState :=
  if (sid, room) ∈ st.members then st else ⟨st.members ++ [(sid, room)]⟩

/-- Socket.io `socket.leave(room)`: removes that one membership pair. -/
def socketLeave (st : ServerState) (sid : SocketId) (room : RoomName) :
    ServerState :=
  ⟨st.members.filter (fun p => p ≠ (sid, room))⟩

/-- The socket.io framework's cleanup on transport disconnect: the socket
leaves every room it was in. -/
def disconnectCleanup (st : ServerState) (sid : SocketId) : ServerState :=
  ⟨st.members.filter (fun p => p.1 ≠ sid)⟩

/-- Recipients of `socket.to(room).emit`: every member except the sender. -/
def socketToRecipients (st : ServerState) (sender : SocketId)
    (room : RoomName) : List SocketId :=
  (roomMembers st room).filter (fun c => c ≠ sender)

/-- Recipients of `io.to(room).emit`: every member, sender not excluded. -/
def ioToRecipients (st : ServerState) (room : RoomName) : List SocketId :=
  roomMembers st room

/-- JavaScript property access `o.k` on a flat object, `"undefined"` when
absent. -/
def getField (o : JsObj) (k : String) : String :=
  match o.find? (fun kv => kv.1 = k) with
  | some kv => kv.2
  | none => "undefined"

/-- JavaScript spread-with-override `{...o, k: v}`: an existing key `k`
keeps its position and takes the new value; a fresh key is appended. -/
def spreadWith (o : JsObj) (k v : String) : JsObj :=
  if o.any (fun kv => kv.1 = k) then
    o.map (fun kv => if kv.1 = k then (k, v) else kv)
  else o ++ [(k, v)]

/-- Fan an event out to a list of recipients. -/
def emitTo (recips : List SocketId) (event : String) (p : PayloadV) :
    List Delivery :=
  recips.map (fun r => ⟨r, event, p⟩)

/-- The room name the server uses for a board: `` `board-${boardId}` ``. -/
def boardRoom (boardId : String) : RoomName := "board-" ++ boardId

/-- server.js 394-397, `socket.on('join-board')`: `socket.join` then
`socket.to(room).emit('user-joined', socket.id)`. -/
def handleJoinBoard (st : ServerState) (sid : SocketId) (boardId : String) :
    ServerState × List Delivery :=
  let st' := socketJoin st sid (boardRoom boardId)
  (st', emitTo (socketToRecipients st' sid (boardRoom boardId))
    "user-joined" (.str sid))

/-- server.js 400-403, `socket.on('leave-board')`: `socket.leave` then
`socket.to(room).emit('user-left', socket.id)`. -/
def handleLeaveBoard (st : ServerState) (sid : SocketId) (boardId : String) :
    ServerState × List Delivery :=
  let st' := socketLeave st sid (boardRoom boardId)
  (st', emitTo (socketToRecipients st' sid (boardRoom boardId))
    "user-left" (.str sid))

/-- server.js 406-408, `socket.on('card-position-update')`: the received
`data` object is forwarded as-is to `socket.to(room)`. -/
def handleCardPositionUpdate (st : ServerState) (sid : SocketId)
    (data : JsObj) : ServerState × List Delivery :=
  (st, emitTo
    (socketToRecipients st sid (boardRoom (getField data "boardId")))
    "card-position-update" (.obj data))

/-- server.js 411-416, `socket.on('cursor-update')`: forwards
`{...data, userId: socket.id}` to `socket.to(room)`. -/
def handleCursorUpdate (st : ServerState) (sid : SocketId) (data : JsObj) :
    ServerState × List Delivery :=
  (st, emitTo
    (socketToRecipients st sid (boardRoom (getField data "boardId")))
    "cursor-update" (.obj (spreadWith data "userId" sid)))

/-- server.js 419-424, `socket.on('typing-start')`: forwards
`{...data, userId: socket.id}`. -/
def handleTypingStart (st : ServerState) (sid : SocketId) (data : JsObj) :
    ServerState × List Delivery :=
  (st, emitTo
    (socketToRecipients st sid (boardRoom (getField data "boardId")))
    "typing-start" (.obj (spreadWith data "userId" sid)))

/-- server.js 426-431, `socket.on('typing-stop')`: forwards
`{...data, userId: socket.id}`. -/
def handleTypingStop (st : ServerState) (sid : SocketId) (data : JsObj) :
    ServerState × List Delivery :=
  (st, emitTo
    (socketToRecipients st sid (boardRoom (getField data "boardId")))
    "typing-stop" (.obj (spreadWith data "userId" sid)))

/-- server.js 433-435, `socket.on('disconnect')`: the handler body is only
`console.log`; the framework's room cleanup happens, and no event is
emitted. -/
def handleDisconnect (st : ServerState) (sid : SocketId) :
    ServerState × List Delivery :=
  (disconnectCleanup st sid, [])

/-- server.js 253, the POST /api/cards endpoint's
`io.to(`board-${board_id}`).emit('card-created', newCard)`: delivered to
every member of the room, the acting client's own connection included. -/
def broadcastCardCreated (st : ServerState) (board_id : String)
    (newCard : JsObj) : List Delivery :=
  emitTo (ioToRecipients st (boardRoom board_id)) "card-created"
    (.obj newCard)

/-- server.js 284, the PUT /api/cards/:id endpoint's
`io.to(...).emit('card-updated', {id, ...updates})`. -/
def broadcastCardUpdated (st : ServerState) (board_id : String)
    (updates : JsObj) : List Delivery :=
  emitTo (ioToRecipients st (boardRoom board_id)) "card-updated"
    (.obj updates)

/-- server.js 308, the DELETE /api/cards/:id endpoint's
`io.to(...).emit('card-deleted', cardId)`. -/
def broadcastCardDeleted (st : ServerState) (board_id : String)
    (cardId : String) : List Delivery :=
  emitTo (ioToRecipients st (boardRoom board_id)) "card-deleted"
    (.str cardId)

theorem emitTo_recipients (recips : List SocketId) (ev : String)
    (p : PayloadV) :
    (emitTo recips ev p).map Delivery.recipient = recips := by
  induction recips with
  | nil => rfl
  | cons a t ih => simp [emitTo] at ih ⊢; exact ih

theorem mem_roomMembers (st : ServerState) (c : SocketId) (r : RoomName) :
    c ∈ roomMembers st r ↔ (c, r) ∈ st.members := by
  simp only [roomMembers, List.mem_map, List.mem_filter, decide_eq_true_eq]
  constructor
  · rintro ⟨⟨c', r'⟩, ⟨hm, hr⟩, hc⟩
    cases hc; cases hr; exact hm
  · intro h
    exact ⟨(c, r), ⟨h, rfl⟩, rfl⟩

theorem mem_socketToRecipients (st : ServerState) (sender c : SocketId)
    (room : RoomName) :
    c ∈ socketToRecipients st sender room ↔
      c ∈ roomMembers st room ∧ c ≠ sender := by
  simp [socketToRecipients, List.mem_filter]

theorem sender_not_mem_socketToRecipients (st : ServerState)
    (sender : SocketId) (room : RoomName) :
    sender ∉ socketToRecipients st sender room := by
  intro h
  exact ((mem_socketToRecipients st sender sender room).mp h).2 rfl

theorem mem_emitTo (recips : List SocketId) (ev : String) (p : PayloadV)
    (d : Delivery) :
    d ∈ emitTo recips ev p ↔ ∃ c ∈ recips, d = ⟨c, ev, p⟩ := by
  simp only [emitTo, List.mem_map]
  constructor
  · rintro ⟨c, hc, rfl⟩
    exact ⟨c, hc, rfl⟩
  · rintro ⟨c, hc, rfl⟩
    exact ⟨c, hc, rfl⟩

theorem find?_spreadWith_same (o : JsObj) (k v : String) :
    (spreadWith o k v).find? (fun kv => kv.1 = k) = some (k, v) := by
  unfold spreadWith
  split
  · rename_i hany
    rw [List.find?_map]
    have hfun : ((fun kv : String × String => decide (kv.1 = k)) ∘
        fun kv => if kv.1 = k then (k, v) else kv) =
        fun kv : String × String => decide (kv.1 = k) := by
      funext kv
      by_cases hkv : kv.1 = k <;> simp [hkv]
    rw [hfun]
    have hsome : (o.find? fun kv => decide (kv.1 = k)).isSome := by
      rw [List.find?_isSome]
      simpa using hany
    obtain ⟨kv1, hkv1⟩ := Option.isSome_iff_exists.mp hsome
    have hk1 : kv1.1 = k := by
      have := List.find?_some hkv1
      simpa using this
    rw [hkv1]
    simp [hk1]
  · rename_i hany
    have hnone : o.find? (fun kv => decide (kv.1 = k)) = none := by
      rw [List.find?_eq_none]
      intro x hx hpx
      exact hany (List.any_eq_true.mpr ⟨x, hx, hpx⟩)
    rw [List.find?_append, hnone]
    simp

theorem find?_spreadWith_other (o : JsObj) (k v k' : String)
    (h : k' ≠ k) :
    (spreadWith o k v).find? (fun kv => kv.1 = k') =
      o.find? (fun kv => kv.1 = k') := by
  unfold spreadWith
  split
  · rw [List.find?_map]
    have hfun : ((fun kv : String × String => decide (kv.1 = k')) ∘
        fun kv => if kv.1 = k then (k, v) else kv) =
        fun kv : String × String => decide (kv.1 = k') := by
      funext kv
      by_cases hkv : kv.1 = k
      · simp [hkv, Ne.symm h]
      · simp [hkv]
    rw [hfun]
    cases hfind : o.find? (fun kv => decide (kv.1 = k')) with
    | none => simp
    | some kv0 =>
      have hk0 : kv0.1 = k' := by
        have := List.find?_some hfind
        simpa using this
      have hk0' : ¬kv0.1 = k := by rw [hk0]; exact h
      simp [hk0']
  · rw [List.find?_append]
    have hsingle : ([(k, v)].find? fun kv => decide (kv.1 = k')) = none := by
      simp [Ne.symm h]
    rw [hsingle]
    cases o.find? (fun kv => decide (kv.1 = k')) <;> rfl

theorem getField_spreadWith_same (o : JsObj) (k v : String) :
    getField (spreadWith o k v) k = v := by
  unfold getField
  rw [find?_spreadWith_same]

theorem getField_spreadWith_other (o : JsObj) (k v k' : String)
    (h : k' ≠ k) :
    getField (spreadWith o k v) k' = getField o k' := by
  unfold getField
  rw [find?_spreadWith_other o k v k' h]

/-- C1 (amended): every event relayed through the socket handlers
(card-position-update, cursor-update, typing-start, typing-stop,
user-joined, user-left) is delivered to every other room member and never
back to the emitting connection, because those handlers broadcast with
`socket.to`; but the card mutation events emitted by the REST endpoints
(card-created, card-updated, card-deleted) are broadcast with `io.to`,
which delivers to every member of the room with no sender exclusion — the
connection of the client whose request caused the mutation included. -/
theorem relay_sender_exclusion (st : ServerState) (sid : SocketId)
    (data : JsObj) (boardId : String) (card : JsObj) :
    sid ∉ (handleCardPositionUpdate st sid data).2.map Delivery.recipient ∧
    sid ∉ (handleCursorUpdate st sid data).2.map Delivery.recipient ∧
    sid ∉ (handleTypingStart st sid data).2.map Delivery.recipient ∧
    sid ∉ (handleTypingStop st sid data).2.map Delivery.recipient ∧
    sid ∉ (handleJoinBoard st sid boardId).2.map Delivery.recipient ∧
    sid ∉ (handleLeaveBoard st sid boardId).2.map Delivery.recipient ∧
    (∀ m ∈ roomMembers st (boardRoom (getField data "boardId")), m ≠ sid →
      m ∈ (handleCardPositionUpdate st sid data).2.map Delivery.recipient) ∧
    (broadcastCardCreated st boardId card).map Delivery.recipient =
      roomMembers st (boardRoom boardId) ∧
    (broadcastCardUpdated st boardId card).map Delivery.recipient =
      roomMembers st (boardRoom boardId) := by
  refine ⟨?_, ?_, ?_, ?_, ?_, ?_, ?_, ?_, ?_⟩
  · rw [show (handleCardPositionUpdate st sid data).2 = emitTo
      (socketToRecipients st sid (boardRoom (getField data "boardId")))
      "card-position-update" (.obj data) from rfl, emitTo_recipients]
    exact sender_not_mem_socketToRecipients st sid _
  · rw [show (handleCursorUpdate st sid data).2 = emitTo
      (socketToRecipients st sid (boardRoom (getField data "boardId")))
      "cursor-update" (.obj (spreadWith data "userId" sid)) from rfl,
      emitTo_recipients]
    exact sender_not_mem_socketToRecipients st sid _
  · rw [show (handleTypingStart st sid data).2 = emitTo
      (socketToRecipients st sid (boardRoom (getField data "boardId")))
      "typing-start" (.obj (spreadWith data "userId" sid)) from rfl,
      emitTo_recipients]
    exact sender_not_mem_socketToRecipients st sid _
  · rw [show (handleTypingStop st sid data).2 = emitTo
      (socketToRecipients st sid (boardRoom (getField data "boardId")))
      "typing-stop" (.obj (spreadWith data "userId" sid)) from rfl,
      emitTo_recipients]
    exact sender_not_mem_socketToRecipients st sid _
  · rw [show (handleJoinBoard st sid boardId).2 = emitTo
      (socketToRecipients (socketJoin st sid (boardRoom boardId)) sid
        (boardRoom boardId)) "user-joined" (.str sid) from rfl,
      emitTo_recipients]
    exact sender_not_mem_socketToRecipients _ sid _
  · rw [show (handleLeaveBoard st sid boardId).2 = emitTo
      (socketToRecipients (socketLeave st sid (boardRoom boardId)) sid
        (boardRoom boardId)) "user-left" (.str sid) from rfl,
      emitTo_recipients]
    exact sender_not_mem_socketToRecipients _ sid _
  · intro m hm hne
    rw [show (handleCardPositionUpdate st sid data).2 = emitTo
      (socketToRecipients st sid (boardRoom (getField data "boardId")))
      "card-position-update" (.obj data) from rfl, emitTo_recipients]
    exact (mem_socketToRecipients st sid m _).mpr ⟨hm, hne⟩
  · rw [show broadcastCardCreated st boardId card = emitTo
      (ioToRecipients st (boardRoom boardId)) "card-created" (.obj card)
      from rfl, emitTo_recipients]
    rfl
  · rw [show broadcastCardUpdated st boardId card = emitTo
      (ioToRecipients st (boardRoom boardId)) "card-updated" (.obj card)
      from rfl, emitTo_recipients]
    rfl

/-- C1 counterexample: connection "A" joins room board-b1 and is its only
member; the `card-created` broadcast for board "b1" that A's own REST
request triggers is delivered back to A (via `io.to`, which does not
exclude the originator). -/
theorem cardCreated_echo_counterexample :
    Delivery.mk "A" "card-created" (.obj [("id", "c1")]) ∈
      broadcastCardCreated (handleJoinBoard ServerState.initial "A" "b1").1
        "b1" [("id", "c1")] := by
  decide

/-- C2 (amended): `join-board` only adds membership: every room the
connection was in before, it is still in afterwards, and it is now also a
member of the newly joined board's room. -/
theorem joinBoard_additive (st : ServerState) (sid c : SocketId)
    (b : String) (r : RoomName) (h : c ∈ roomMembers st r) :
    c ∈ roomMembers (handleJoinBoard st sid b).1 r ∧
    sid ∈ roomMembers (handleJoinBoard st sid b).1 (boardRoom b) := by
  have hstep : (handleJoinBoard st sid b).1 = socketJoin st sid (boardRoom b) :=
    rfl
  rw [hstep]
  unfold socketJoin
  split
  · rename_i hmem
    exact ⟨h, (mem_roomMembers st sid (boardRoom b)).mpr hmem⟩
  · constructor
    · rw [mem_roomMembers]
      exact List.mem_append_left _ ((mem_roomMembers st c r).mp h)
    · rw [mem_roomMembers]
      exact List.mem_append_right _ (List.mem_singleton.mpr rfl)

/-- Closed instance of the amended C2: "A", already in board-1's room,
joins board 2 and is then a member of both rooms. -/
theorem joinBoard_additive_witness :
    "A" ∈ roomMembers (handleJoinBoard ⟨[("A", "board-1")]⟩ "A" "2").1
        "board-1" ∧
    "A" ∈ roomMembers (handleJoinBoard ⟨[("A", "board-1")]⟩ "A" "2").1
        (boardRoom "2") :=
  joinBoard_additive ⟨[("A", "board-1")]⟩ "A" "A" "2" "board-1" (by decide)

/-- C2 counterexample: after "A" joins board 1 and then board 2 with no
explicit leave, "A" is still a member of room board-1, and a subsequent
card-position broadcast to board 1 by "B" is delivered to "A". -/
theorem joinBoard_multiroom_counterexample :
    "A" ∈ roomMembers
        (handleJoinBoard (handleJoinBoard ServerState.initial "A" "1").1
          "A" "2").1 (boardRoom "1") ∧
    "A" ∈ (handleCardPositionUpdate
        (handleJoinBoard (handleJoinBoard ServerState.initial "A" "1").1
          "A" "2").1 "B" [("boardId", "1")]).2.map Delivery.recipient := by
  decide

/-- C3 (amended): on transport disconnect the connection does leave every
room (framework-level cleanup), but the `'disconnect'` handler broadcasts
nothing — no `user-left` event is emitted; `user-left` is broadcast to the
remaining members only by the explicit `leave-board` handler. -/
theorem disconnect_emits_nothing (st : ServerState) (sid m : SocketId)
    (r : RoomName) (b : String)
    (hm : m ∈ roomMembers st (boardRoom b)) (hne : m ≠ sid) :
    sid ∉ roomMembers (handleDisconnect st sid).1 r ∧
    (handleDisconnect st sid).2 = [] ∧
    Delivery.mk m "user-left" (.str sid) ∈ (handleLeaveBoard st sid b).2 := by
  refine ⟨?_, rfl, ?_⟩
  · intro hmem
    have h1 : (sid, r) ∈ (disconnectCleanup st sid).members :=
      (mem_roomMembers _ sid r).mp hmem
    have h2 := List.mem_filter.mp h1
    simp at h2
  · rw [show (handleLeaveBoard st sid b).2 = emitTo
      (socketToRecipients (socketLeave st sid (boardRoom b)) sid
        (boardRoom b)) "user-left" (.str sid) from rfl]
    rw [mem_emitTo]
    refine ⟨m, ?_, rfl⟩
    rw [mem_socketToRecipients]
    refine ⟨?_, hne⟩
    rw [mem_roomMembers]
    have h1 := (mem_roomMembers st m (boardRoom b)).mp hm
    unfold socketLeave
    rw [List.mem_filter]
    refine ⟨h1, ?_⟩
    simp
    intro hcontr
    exact absurd hcontr hne

/-- Closed instance of the amended C3 at a two-member room. -/
theorem disconnect_emits_nothing_witness :
    "A" ∉ roomMembers
        (handleDisconnect ⟨[("A", "board-1"), ("B", "board-1")]⟩ "A").1
        "board-1" ∧
    (handleDisconnect ⟨[("A", "board-1"), ("B", "board-1")]⟩ "A").2 = [] ∧
    Delivery.mk "B" "user-left" (.str "A") ∈
      (handleLeaveBoard ⟨[("A", "board-1"), ("B", "board-1")]⟩ "A" "1").2 :=
  disconnect_emits_nothing ⟨[("A", "board-1"), ("B", "board-1")]⟩ "A" "B"
    "board-1" "1" (by decide) (by decide)

/-- C3 counterexample: "A" and "B" share room board-1; when A's transport
disconnects, the relay emits no event at all — in particular no
`user-left` reaches the remaining member "B". -/
theorem disconnect_no_userleft_counterexample :
    (handleDisconnect ⟨[("A", "board-1"), ("B", "board-1")]⟩ "A").2 = [] ∧
    "B" ∈ roomMembers ⟨[("A", "board-1"), ("B", "board-1")]⟩
      (boardRoom "1") := by
  decide

/-- C7 (amended): the payloads of `cursor-update`, `typing-start` and
`typing-stop` are forwarded with the `userId` property set to the origin
socket id (overwriting any client-supplied value) and every other property
unchanged; `card-position-update`, however, is forwarded with the payload
completely unchanged — no origin tag is added. -/
theorem relay_payload_tagging (st : ServerState) (sid : SocketId)
    (data : JsObj) (k : String) (hk : k ≠ "userId") :
    (∀ d ∈ (handleCardPositionUpdate st sid data).2,
      d.event = "card-position-update" ∧ d.payload = .obj data) ∧
    (∀ d ∈ (handleCursorUpdate st sid data).2,
      d.event = "cursor-update" ∧
        d.payload = .obj (spreadWith data "userId" sid)) ∧
    (∀ d ∈ (handleTypingStart st sid data).2,
      d.payload = .obj (spreadWith data "userId" sid)) ∧
    (∀ d ∈ (handleTypingStop st sid data).2,
      d.payload = .obj (spreadWith data "userId" sid)) ∧
    getField (spreadWith data "userId" sid) "userId" = sid ∧
    getField (spreadWith data "userId" sid) k = getField data k := by
  refine ⟨?_, ?_, ?_, ?_, getField_spreadWith_same data "userId" sid,
    getField_spreadWith_other data "userId" sid k hk⟩
  · intro d hd
    obtain ⟨c, _, rfl⟩ := (mem_emitTo _ _ _ d).mp hd
    exact ⟨rfl, rfl⟩
  · intro d hd
    obtain ⟨c, _, rfl⟩ := (mem_emitTo _ _ _ d).mp hd
    exact ⟨rfl, rfl⟩
  · intro d hd
    obtain ⟨c, _, rfl⟩ := (mem_emitTo _ _ _ d).mp hd
    rfl
  · intro d hd
    obtain ⟨c, _, rfl⟩ := (mem_emitTo _ _ _ d).mp hd
    rfl

/-- Closed instance of the amended C7: a concrete cursor-update payload is
re-tagged with the sender's socket id while its `x` field survives, and a
concrete card-position-update is forwarded verbatim. -/
theorem relay_payload_tagging_witness :
    getField (spreadWith [("x", "5"), ("boardId", "1"), ("userId", "u0")]
        "userId" "A") "userId" = "A" ∧
    getField (spreadWith [("x", "5"), ("boardId", "1"), ("userId", "u0")]
        "userId" "A") "x" =
      getField [("x", "5"), ("boardId", "1"), ("userId", "u0")] "x" :=
  have h := relay_payload_tagging ⟨[("A", "board-1"), ("B", "board-1")]⟩
    "A" [("x", "5"), ("boardId", "1"), ("userId", "u0")] "x" (by decide)
  ⟨h.2.2.2.2.1, h.2.2.2.2.2⟩

/-- C7 counterexample: "A" and "B" share room board-1; A's
card-position-update payload is forwarded to B bit-for-bit identical, with
no `userId` origin tag added (the payload has no `userId` property at all,
before or after the relay). -/
theorem cardPosition_untagged_counterexample :
    (handleCardPositionUpdate ⟨[("A", "board-1"), ("B", "board-1")]⟩ "A"
        [("cardId", "c1"), ("boardId", "1")]).2 =
      [⟨"B", "card-position-update",
        .obj [("cardId", "c1"), ("boardId", "1")]⟩] ∧
    getField [("cardId", "c1"), ("boardId", "1")] "userId" = "undefined" := by
  decide

/-! ## Collaboration client (collaboration.js, class CollaborationManager)

The state fields the modelled methods read or write: whether a socket
object exists (`this.socket`, null only when the socket.io library is
unavailable), the `connected` flag, the current board (`null` initially,
and the empty string would be falsy like `null`), the client's generated
`currentUser` id, and the reconnect attempt counter. The DOM side of the
cursor and typing display (elements, timers) is outside the model; of
`updateCursor` and `showTypingIndicator` only the origin check that decides
whether they act at all is modelled, as a Bool.
-/

/-- The modelled fields of a `CollaborationManager` instance. -/
structure ClientState where
  hasSocket : Bool
  connected : Bool
  currentBoard : Option String
  currentUser : String
  connectionRetries : Nat
  deriving DecidableEq, Repr

/-- JavaScript truthiness of a nullable string such as
`this.currentBoard`: `null`/`undefined` and `""` are falsy. -/
def strTruthy : Option String → Bool
  | none => false
  | some s => s ≠ ""

/-- Something the client emits: `sock` is `this.socket.emit` (a wire
message to the relay), `localEv` is `this.emit` (an EventEmitter callback
to the rest of the UI). -/
inductive ClientOut where
  | sock : String → PayloadV → ClientOut
  | localEv : String → PayloadV → ClientOut
  deriving DecidableEq, Repr

/-- collaboration.js 184-194, `leaveBoard()`: returns early without a
socket or a (truthy) current board; otherwise emits `leave-board` on the
wire, fires the local `board-left`, and nulls `currentBoard`. -/
def leaveBoard (st : ClientState) : ClientState × List ClientOut :=
  if !st.hasSocket || !(strTruthy st.currentBoard) then (st, [])
  else
    ({ st with currentBoard := none },
      [.sock "leave-board" (.str (st.currentBoard.getD "")),
       .localEv "board-left" (.str (st.currentBoard.getD ""))])

/-- collaboration.js 167-182, `joinBoard(boardId)`: returns early (warning
only, nothing recorded) without a socket or while not connected; otherwise
first leaves a different current board, then records `currentBoard`, emits
`join-board` on the wire and fires the local `board-joined`. -/
def joinBoard (st : ClientState) (boardId : String) :
    ClientState × List ClientOut :=
  if !st.hasSocket || !st.connected then (st, [])
  else
    let leavePair :=
      if strTruthy st.currentBoard && !(st.currentBoard == some boardId) then
        leaveBoard st
      else (st, ([] : List ClientOut))
    ({ leavePair.1 with currentBoard := some boardId },
      leavePair.2 ++ [.sock "join-board" (.str boardId),
        .localEv "board-joined" (.str boardId)])

/-- collaboration.js 48-58, the `socket.on('connect')` listener: sets
`connected`, resets the retry counter, fires the local `connected` event,
then rejoins `currentBoard` if one is recorded. -/
def onConnect (st : ClientState) : ClientState × List ClientOut :=
  let st1 := { st with connected := true, connectionRetries := 0 }
  let rejoin :=
    if strTruthy st1.currentBoard then
      joinBoard st1 (st1.currentBoard.getD "")
    else (st1, ([] : List ClientOut))
  (rejoin.1, .localEv "connected" .empty :: rejoin.2)

/-- collaboration.js 60-66, the `socket.on('disconnect')` listener: clears
the `connected` flag and fires the local `disconnected` event (cursor and
typing DOM state is cleared; `currentBoard` is left as it was). -/
def onClientDisconnect (st : ClientState) (reason : String) :
    ClientState × List ClientOut :=
  ({ st with connected := false },
    [.localEv "disconnected" (.str reason)])

/-- collaboration.js 231-241, `broadcastCursorPosition(x, y)`: emits a
cursor-update only when connected with a truthy current board; otherwise
does nothing — nothing queued, state untouched. `now` stands for the
`Date.now()` read. -/
def broadcastCursorPosition (st : ClientState) (x y now : Int) :
    ClientState × List ClientOut :=
  if st.connected && strTruthy st.currentBoard then
    (st, [.sock "cursor-update" (.obj
      [("x", toString x), ("y", toString y),
       ("boardId", st.currentBoard.getD ""),
       ("userId", st.currentUser), ("timestamp", toString now)])])
  else (st, [])

/-- collaboration.js 218-228, `broadcastCardPosition(cardId, x, y)`: same
guard as the cursor broadcast, emitting card-position-update. -/
def broadcastCardPosition (st : ClientState) (cardId : String) (x y : Int) :
    ClientState × List ClientOut :=
  if st.connected && strTruthy st.currentBoard then
    (st, [.sock "card-position-update" (.obj
      [("cardId", cardId), ("x", toString x), ("y", toString y),
       ("boardId", st.currentBoard.getD ""),
       ("userId", st.currentUser)])])
  else (st, [])

/-- collaboration.js 84-86, `socket.on('card-created')`: unconditionally
re-fires the payload as the local `remote-card-created` callback — no
origin comparison of any kind. -/
def onCardCreated (_st : ClientState) (cardData : JsObj) : List ClientOut :=
  [.localEv "remote-card-created" (.obj cardData)]

/-- collaboration.js 88-90, `socket.on('card-updated')`: unconditional
local re-fire, no origin comparison. -/
def onCardUpdated (_st : ClientState) (updateData : JsObj) : List ClientOut :=
  [.localEv "remote-card-updated" (.obj updateData)]

/-- collaboration.js 92-94, `socket.on('card-deleted')`: unconditional
local re-fire, no origin comparison. -/
def onCardDeleted (_st : ClientState) (cardId : String) : List ClientOut :=
  [.localEv "remote-card-deleted" (.str cardId)]

/-- collaboration.js 96-98, `socket.on('card-position-update')`:
unconditional local re-fire, no origin comparison. -/
def onCardPositionUpdate (_st : ClientState) (positionData : JsObj) :
    List ClientOut :=
  [.localEv "remote-card-position-update" (.obj positionData)]

/-- collaboration.js 243-244, the origin check at the top of
`updateCursor`: the cursor is displayed unless the payload's `userId`
equals the client's own `currentUser`. -/
def updateCursorDisplays (st : ClientState) (cursorData : JsObj) : Bool :=
  !(getField cursorData "userId" == st.currentUser)

/-- collaboration.js 345, the origin check at the top of
`showTypingIndicator`: same comparison as `updateCursor`. -/
def showTypingDisplays (st : ClientState) (typingData : JsObj) : Bool :=
  !(getField typingData "userId" == st.currentUser)

/-- C4 (amended): the client fires the local callback for every inbound
card mutation event unconditionally — even when the payload's `userId` is
the client's own identity, the callback fires; the origin-identity
comparison exists only in the cursor-update and typing-indicator handlers,
which discard self-originated events. -/
theorem client_mutation_no_origin_filter (st : ClientState) (data : JsObj)
    (cardId : String) (h : getField data "userId" = st.currentUser) :
    onCardCreated st data = [.localEv "remote-card-created" (.obj data)] ∧
    onCardUpdated st data = [.localEv "remote-card-updated" (.obj data)] ∧
    onCardDeleted st cardId = [.localEv "remote-card-deleted" (.str cardId)] ∧
    onCardPositionUpdate st data =
      [.localEv "remote-card-position-update" (.obj data)] ∧
    updateCursorDisplays st data = false ∧
    showTypingDisplays st data = false := by
  refine ⟨rfl, rfl, rfl, rfl, ?_, ?_⟩
  · simp [updateCursorDisplays, h]
  · simp [showTypingDisplays, h]

/-- Closed instance of the amended C4: a card-updated payload carrying the
client's own user id still fires the local callback, while a cursor-update
with the same payload would be discarded. -/
theorem client_mutation_no_origin_filter_witness :
    onCardUpdated ⟨true, true, some "1", "user_me", 0⟩
        [("id", "c1"), ("userId", "user_me")] =
      [.localEv "remote-card-updated"
        (.obj [("id", "c1"), ("userId", "user_me")])] ∧
    updateCursorDisplays ⟨true, true, some "1", "user_me", 0⟩
        [("id", "c1"), ("userId", "user_me")] = false :=
  have h := client_mutation_no_origin_filter
    ⟨true, true, some "1", "user_me", 0⟩
    [("id", "c1"), ("userId", "user_me")] "c1" (by decide)
  ⟨h.2.1, h.2.2.2.2.1⟩

/-- C4 counterexample: a card-updated event whose `userId` equals the
client's own `currentUser` ("user_me") is not discarded — the local
`remote-card-updated` callback fires with the echoed payload. -/
theorem client_echo_not_discarded_counterexample :
    onCardUpdated ⟨true, true, some "1", "user_me", 0⟩
        [("id", "c1"), ("userId", "user_me")] =
      [.localEv "remote-card-updated"
        (.obj [("id", "c1"), ("userId", "user_me")])] ∧
    getField [("id", "c1"), ("userId", "user_me")] "userId" = "user_me" := by
  decide

/-- C8 (amended): `joinBoard` called while not connected is a pure no-op —
the requested room is not recorded and nothing is emitted; what the
`connect` listener rejoins is the board already recorded in
`currentBoard` (which a transport disconnect leaves in place), so only a
board joined before the drop is rejoined automatically on reconnect. -/
theorem joinBoard_reconnect (st : ClientState) (b roomId : String)
    (hs : st.hasSocket = true) (hc : st.connected = false)
    (hb : st.currentBoard = some b) (hbne : b ≠ "") :
    joinBoard st roomId = (st, []) ∧
    (onClientDisconnect st "transport close").1.currentBoard = some b ∧
    (onConnect st).1.currentBoard = some b ∧
    .sock "join-board" (.str b) ∈ (onConnect st).2 := by
  refine ⟨?_, ?_, ?_, ?_⟩
  · simp [joinBoard, hs, hc]
  · simp [onClientDisconnect, hb]
  · simp [onConnect, strTruthy, hb, hbne, joinBoard, hs, leaveBoard]
  · simp [onConnect, strTruthy, hb, hbne, joinBoard, hs, leaveBoard]

/-- Closed instance of the amended C8: a client that was in board "b1"
when the transport dropped rejoins it on connect, while a joinBoard("b2")
issued during the outage was dropped. -/
theorem joinBoard_reconnect_witness :
    joinBoard ⟨true, false, some "b1", "user_me", 0⟩ "b2" =
      (⟨true, false, some "b1", "user_me", 0⟩, []) ∧
    (onClientDisconnect ⟨true, false, some "b1", "user_me", 0⟩
        "transport close").1.currentBoard = some "b1" ∧
    (onConnect ⟨true, false, some "b1", "user_me", 0⟩).1.currentBoard =
      some "b1" ∧
    .sock "join-board" (.str "b1") ∈
      (onConnect ⟨true, false, some "b1", "user_me", 0⟩).2 :=
  joinBoard_reconnect ⟨true, false, some "b1", "user_me", 0⟩ "b1" "b2"
    rfl rfl rfl (by decide)

/-- C8 counterexample: a client with no current board calls
joinBoard("b1") while disconnected; the call changes nothing and records
nothing, and the subsequent connect event joins no room — only the local
`connected` event fires. -/
theorem joinBoard_not_remembered_counterexample :
    joinBoard ⟨true, false, none, "user_me", 0⟩ "b1" =
      (⟨true, false, none, "user_me", 0⟩, []) ∧
    (onConnect ⟨true, false, none, "user_me", 0⟩).2 =
      [.localEv "connected" .empty] ∧
    (onConnect ⟨true, false, none, "user_me", 0⟩).1.currentBoard = none := by
  decide

/-- C9: while not connected or with no (truthy) current board, both
ephemeral broadcasts are pure no-ops: no wire message, no local event,
nothing queued, and the client state is returned unchanged. -/
theorem broadcast_noop_when_not_in_room (st : ClientState)
    (x y now : Int) (cardId : String)
    (h : st.connected = false ∨ strTruthy st.currentBoard = false) :
    broadcastCursorPosition st x y now = (st, []) ∧
    broadcastCardPosition st cardId x y = (st, []) := by
  have hcond : (st.connected && strTruthy st.currentBoard) = false := by
    rcases h with h | h <;> simp [h]
  constructor
  · simp [broadcastCursorPosition, hcond]
  · simp [broadcastCardPosition, hcond]

/-- Closed instance of C9: a disconnected client (which still remembers
board "1") drops cursor and card-position broadcasts entirely. -/
theorem broadcast_noop_when_not_in_room_witness :
    broadcastCursorPosition ⟨true, false, some "1", "user_me", 0⟩ 10 20 99 =
      (⟨true, false, some "1", "user_me", 0⟩, []) ∧
    broadcastCardPosition ⟨true, false, some "1", "user_me", 0⟩ "c1" 10 20 =
      (⟨true, false, some "1", "user_me", 0⟩, []) :=
  broadcast_noop_when_not_in_room ⟨true, false, some "1", "user_me", 0⟩
    10 20 99 "c1" (Or.inl rfl)

end Corkboard
